import Mathlib

/-!
Verification of the EduAssist E2E-test wait-and-locate engine
(`utils/driver_manager.py` and `pages/base_page.py`) against its
natural-language specification.

The Python code drives a browser through the Selenium automation
endpoint.  We embed it shallowly:

* the browser DOM state is a `World`: a map from `Locator` to the
  element (if any) that the automation endpoint would resolve for that
  locator within the relevant wait's timeout;
* Python exceptions become the `PyExn` type and a fallible Python
  expression becomes `Except PyExn α`; a `try/except` in the source
  becomes a `match` on that `Except`;
* `print` diagnostics become an explicit `List String` log component;
* for timing-sensitive operations (polling loops), time is measured in
  discrete half-second ticks (the 0.5 s poll/sleep interval used both
  by `WebDriverWait` and by the hand-written loops), and the DOM/URL/
  title are functions of the tick index; a timeout of `T` seconds is
  `2 * T` ticks.
-/

set_option autoImplicit false

namespace EduAssist

/-- Python exceptions relevant to the engine: Selenium's
`TimeoutException`, the soft interaction failures
(stale element, element not interactable, a command rejected by the
automation endpoint), plus Python's `RuntimeError` and
`AttributeError` with their message. -/
inductive PyExn where
  | timeoutExn
  | staleElement
  | notInteractable
  | endpointRejected
  | runtimeError (msg : String)
  | attributeError (attr : String)
  deriving DecidableEq, Repr

/-- A Selenium locator tuple `(By.<strategy>, value)`, as produced by
the `by_css` / `by_xpath` / ... helpers at the bottom of
`driver_manager.py`. -/
structure Locator where
  strategy : String
  value : String
  deriving DecidableEq, Repr

/-- `by_css(selector)` from `driver_manager.py`: builds a
`(By.CSS_SELECTOR, selector)` locator. -/
def by_css (selector : String) : Locator :=
  ⟨"css selector", selector⟩

/-- The state of one DOM element as seen through the automation
endpoint: its current textual value, whether it is displayed and
enabled, and which element-level commands would currently fail (and
with which exception).  `value` models the text that `send_keys`
appends to and that the endpoint reports back as the element's text. -/
structure Elem where
  value : List Char
  displayed : Bool
  enabled : Bool
  clickErr : Option PyExn
  clearErr : Option PyExn
  sendKeysErr : Option PyExn
  textErr : Option PyExn
  deriving DecidableEq, Repr

/-- A browser state: for each locator, the element (if any) that a
presence wait would resolve within its timeout.  `none` means the
locator never matches during the wait, i.e. the wait ends in
`TimeoutException`. -/
def World : Type := Locator → Option Elem

/-- Update the world after a mutating interaction with the element at
`loc`. -/
def wUpdate (w : World) (loc : Locator) (e : Elem) : World :=
  fun l => if l = loc then some e else w l

/-- Raw `WebDriverWait(driver, timeout).until(EC.presence_of_element_located(locator))`:
resolves the element if the locator ever matches within the timeout,
otherwise raises `TimeoutException`. -/
def rawWaitPresence (w : World) (loc : Locator) : Except PyExn Elem :=
  match w loc with
  | some e => Except.ok e
  | none => Except.error PyExn.timeoutExn

/-- Raw `WebDriverWait(driver, timeout).until(EC.element_to_be_clickable(locator))`:
like presence, but the element must also be displayed and enabled;
otherwise the wait ends in `TimeoutException`. -/
def rawWaitClickable (w : World) (loc : Locator) : Except PyExn Elem :=
  match w loc with
  | some e =>
    if e.displayed && e.enabled then Except.ok e else Except.error PyExn.timeoutExn
  | none => Except.error PyExn.timeoutExn

/-- `DriverManager.find_element_safe` (driver_manager.py lines
137-151): waits for presence, catches only `TimeoutException` and
converts it to `None` plus a printed warning; any other exception
would propagate.  Result: the Python return value (as
`Except PyExn (Option Elem)`) together with the printed diagnostics. -/
def find_element_safe (w : World) (loc : Locator) :
    Except PyExn (Option Elem) × List String :=
  match rawWaitPresence w loc with
  | Except.ok e => (Except.ok (some e), [])
  | Except.error PyExn.timeoutExn =>
      (Except.ok none, ["warning: element not found: " ++ loc.value])
  | Except.error ex => (Except.error ex, [])

/-- `DriverManager.wait_for_element_clickable` (lines 162-176): waits
for clickability, catches only `TimeoutException` (returning `None`
plus a warning). -/
def wait_for_element_clickable (w : World) (loc : Locator) :
    Except PyExn (Option Elem) × List String :=
  match rawWaitClickable w loc with
  | Except.ok e => (Except.ok (some e), [])
  | Except.error PyExn.timeoutExn =>
      (Except.ok none, ["warning: element not clickable: " ++ loc.value])
  | Except.error ex => (Except.error ex, [])

/-- `element.click()`: succeeds or raises the element's click
exception. -/
def elemClick (e : Elem) : Except PyExn Unit :=
  match e.clickErr with
  | none => Except.ok ()
  | some ex => Except.error ex

/-- `element.clear()`: empties the field, or raises. -/
def elemClear (e : Elem) : Except PyExn Elem :=
  match e.clearErr with
  | none => Except.ok { e with value := [] }
  | some ex => Except.error ex

/-- `element.send_keys(text)`: appends `text` to the field's value, or
raises. -/
def elemSendKeys (e : Elem) (text : List Char) : Except PyExn Elem :=
  match e.sendKeysErr with
  | none => Except.ok { e with value := e.value ++ text }
  | some ex => Except.error ex

/-- `element.text`: the element's rendered text as reported by the
automation endpoint, or raises.  Modelled from the spec: the spec's
`readText`/round-trip contract treats the rendered text of a text
input as its current value, so the endpoint read returns `e.value`. -/
def elemText (e : Elem) : Except PyExn (List Char) :=
  match e.textErr with
  | none => Except.ok e.value
  | some ex => Except.error ex

/-- `DriverManager.click_element_safe` (lines 196-209): resolve via
`wait_for_element_clickable`; if an element came back, try the click
under a broad `except Exception` that converts any failure to `False`
plus a warning; return `False` when resolution failed. -/
def click_element_safe (w : World) (loc : Locator) :
    Except PyExn Bool × List String :=
  match wait_for_element_clickable w loc with
  | (Except.ok (some e), lg) =>
      match elemClick e with
      | Except.ok _ => (Except.ok true, lg)
      | Except.error _ => (Except.ok false, lg ++ ["warning: click failed"])
  | (Except.ok none, lg) => (Except.ok false, lg)
  | (Except.error ex, lg) => (Except.error ex, lg)

/-- `DriverManager.type_text_safe` (lines 212-227): resolve via
`find_element_safe` (default timeout); if found, optionally clear then
send the keys, under a broad `except Exception` converting any failure
to `False` plus a warning; `False` when resolution failed.  Also
returns the world as mutated by the interactions that did run. -/
def type_text_safe (w : World) (loc : Locator) (text : List Char)
    (clear_first : Bool) :
    Except PyExn Bool × World × List String :=
  match find_element_safe w loc with
  | (Except.ok (some e), lg) =>
      match (if clear_first then elemClear e else Except.ok e) with
      | Except.error _ => (Except.ok false, w, lg ++ ["warning: text input failed"])
      | Except.ok e1 =>
          match elemSendKeys e1 text with
          | Except.error _ =>
              (Except.ok false, wUpdate w loc e1, lg ++ ["warning: text input failed"])
          | Except.ok e2 => (Except.ok true, wUpdate w loc e2, lg)
  | (Except.ok none, lg) => (Except.ok false, w, lg)
  | (Except.error ex, lg) => (Except.error ex, w, lg)

/-- `DriverManager.get_text_safe` (lines 229-239): resolve via
`find_element_safe`; read `element.text` under a broad
`except Exception` converting failure to `""`; `""` when resolution
failed. -/
def get_text_safe (w : World) (loc : Locator) :
    Except PyExn (List Char) × List String :=
  match find_element_safe w loc with
  | (Except.ok (some e), lg) =>
      match elemText e with
      | Except.ok t => (Except.ok t, lg)
      | Except.error _ => (Except.ok [], lg ++ ["warning: get text failed"])
  | (Except.ok none, lg) => (Except.ok [], lg)
  | (Except.error ex, lg) => (Except.error ex, lg)

/-- `BasePage.try_multiple_selectors` in its `action="find"` branch
(base_page.py lines 120-141): for each CSS selector in order, resolve
with `find_element_safe(by_css(selector), timeout=2)`; return the
element as soon as one is present *and* displayed; on anything else
(absent, present-but-hidden, or any exception, which the
`except Exception: continue` swallows) move on; `None` when the list
is exhausted. -/
def try_multiple_selectors_find (w : World) : List String → Option Elem
  | [] => none
  | sel :: rest =>
      match (find_element_safe w (by_css sel)).1 with
      | Except.ok (some e) =>
          if e.displayed then some e else try_multiple_selectors_find w rest
      | _ => try_multiple_selectors_find w rest

/-- A selector matches for `try_multiple_selectors`' purposes when it
resolves to an element that is present and displayed. -/
def matchesVisible (w : World) (sel : String) : Bool :=
  match w (by_css sel) with
  | some e => e.displayed
  | none => false

/-- Spec-side contract for `locate`: "polls for presence of the
element named by locator until timeout elapses; returns absent (never
raises) on timeout". -/
def specLocate (w : World) (loc : Locator) : Option Elem := w loc

/-- Spec-side contract for `click`: "resolves via waitClickable;
performs the click; returns false (never raises) if resolution or the
click action itself fails". -/
def specClickResult (w : World) (loc : Locator) : Bool :=
  match w loc with
  | some e => e.displayed && e.enabled && e.clickErr.isNone
  | none => false

/-- Spec-side contract for `type`: "resolves via locate; optionally
clears the field; sends text; returns false on any failure". -/
def specTypeResult (w : World) (loc : Locator) (clear_first : Bool) : Bool :=
  match w loc with
  | some e => (!clear_first || e.clearErr.isNone) && e.sendKeysErr.isNone
  | none => false

/-- Spec-side contract for `readText`: "resolves via locate; returns
the element's rendered text, or empty string if absent or on read
failure". -/
def specReadTextResult (w : World) (loc : Locator) : List Char :=
  match w loc with
  | some e =>
      match e.textErr with
      | none => e.value
      | some _ => []
  | none => []

/-- Claim C1: in `find` mode, `try_multiple_selectors` returns exactly
the element resolved by the *first* selector in list order that is
present and visible (`List.find?` picks the first match), never one
matched by a later selector when an earlier one also matches; and when
no selector matches (`find?` is `none`), it returns `none`. -/
theorem C1_find_first_match_wins (w : World) (sels : List String) :
    try_multiple_selectors_find w sels =
      (sels.find? (matchesVisible w)).bind (fun s => w (by_css s)) := by
  induction sels with
  | nil => rfl
  | cons s rest ih =>
      cases h : w (by_css s) with
      | none =>
          simp [try_multiple_selectors_find, find_element_safe, rawWaitPresence,
                matchesVisible, h, List.find?_cons, ih]
      | some e =>
          cases hd : e.displayed <;>
            simp [try_multiple_selectors_find, find_element_safe, rawWaitPresence,
                  matchesVisible, h, hd, List.find?_cons, ih]

set_option maxRecDepth 8192 in
/-- Claim C2: for every browser state, `find_element_safe`,
`click_element_safe`, `type_text_safe` and `get_text_safe` return an
ordinary value (`Except.ok ...`, never `Except.error`), equal to the
spec's soft-failure contract — in particular `none` / `false` /
`false` / `""` on every soft lookup or interaction failure — and when
the element is absent at timeout each of them also emits a diagnostic
message. -/
theorem C2_soft_failures_never_propagate (w : World) (loc : Locator)
    (text : List Char) (cf : Bool) :
    (find_element_safe w loc).1 = Except.ok (specLocate w loc)
    ∧ (click_element_safe w loc).1 = Except.ok (specClickResult w loc)
    ∧ (type_text_safe w loc text cf).1 = Except.ok (specTypeResult w loc cf)
    ∧ (get_text_safe w loc).1 = Except.ok (specReadTextResult w loc)
    ∧ (w loc = none →
        (find_element_safe w loc).1 = Except.ok none
        ∧ (click_element_safe w loc).1 = Except.ok false
        ∧ (type_text_safe w loc text cf).1 = Except.ok false
        ∧ (get_text_safe w loc).1 = Except.ok []
        ∧ (find_element_safe w loc).2 ≠ []
        ∧ (click_element_safe w loc).2 ≠ []
        ∧ (type_text_safe w loc text cf).2.2 ≠ []
        ∧ (get_text_safe w loc).2 ≠ []) := by
  cases h : w loc with
  | none =>
      simp [find_element_safe, click_element_safe, type_text_safe, get_text_safe,
            wait_for_element_clickable, rawWaitPresence, rawWaitClickable,
            specLocate, specClickResult, specTypeResult, specReadTextResult, h]
  | some e =>
      rcases e with ⟨v, d, en, ce, cle, se, te⟩
      cases d <;> cases en <;> cases ce <;> cases cle <;> cases se <;> cases te <;>
        cases cf <;>
          simp [find_element_safe, click_element_safe, type_text_safe,
                get_text_safe, wait_for_element_clickable, rawWaitPresence,
                rawWaitClickable, elemClick, elemClear, elemSendKeys, elemText,
                specLocate, specClickResult, specTypeResult, specReadTextResult, h]

/-- World used to witness the soft-failure contract: no locator ever
matches. -/
def emptyWorld : World := fun _ => none

/-- Witness for C2 at a concrete absent element. -/
theorem C2_soft_failures_never_propagate_witness :
    (find_element_safe emptyWorld (by_css "#login") ).1 = Except.ok none
    ∧ (click_element_safe emptyWorld (by_css "#login")).1 = Except.ok false
    ∧ (type_text_safe emptyWorld (by_css "#login") "hi".data true).1 = Except.ok false
    ∧ (get_text_safe emptyWorld (by_css "#login")).1 = Except.ok []
    ∧ (find_element_safe emptyWorld (by_css "#login")).2 ≠ []
    ∧ (click_element_safe emptyWorld (by_css "#login")).2 ≠ []
    ∧ (type_text_safe emptyWorld (by_css "#login") "hi".data true).2.2 ≠ []
    ∧ (get_text_safe emptyWorld (by_css "#login")).2 ≠ [] :=
  (C2_soft_failures_never_propagate emptyWorld (by_css "#login") "hi".data
    true).2.2.2.2 rfl

/-- Claim C8: on a located text input whose clear / send-keys / text
reads all succeed, a `type_text_safe` with the default
`clear_first = true` followed by `get_text_safe` on the same locator
returns exactly the typed text (round-trip through the input field). -/
theorem C8_type_then_read_roundtrip (w : World) (loc : Locator)
    (text : List Char) (e : Elem) (hp : w loc = some e)
    (hc : e.clearErr = none) (hs : e.sendKeysErr = none)
    (ht : e.textErr = none) :
    (type_text_safe w loc text true).1 = Except.ok true
    ∧ (get_text_safe (type_text_safe w loc text true).2.1 loc).1 =
        Except.ok text := by
  simp [type_text_safe, find_element_safe, rawWaitPresence, hp, elemClear, hc,
        elemSendKeys, hs, get_text_safe, wUpdate, elemText, ht]

/-- A healthy, visible, fully interactable text input that currently
holds some stale text. -/
def healthyInput : Elem :=
  ⟨"old text".data, true, true, none, none, none, none⟩

/-- World used to witness the round-trip: every locator resolves to
`healthyInput`. -/
def inputWorld : World := fun _ => some healthyInput

/-- Witness for C8 at the spec's example input. -/
theorem C8_type_then_read_roundtrip_witness :
    (type_text_safe inputWorld (by_css "input") "demo@eduassist.com".data
        true).1 = Except.ok true
    ∧ (get_text_safe
          (type_text_safe inputWorld (by_css "input")
            "demo@eduassist.com".data true).2.1 (by_css "input")).1 =
        Except.ok "demo@eduassist.com".data :=
  C8_type_then_read_roundtrip inputWorld (by_css "input")
    "demo@eduassist.com".data healthyInput rfl rfl rfl rfl

/-! ## Timed model

The polling operations are timing-sensitive, so we also embed them over
a time-indexed browser state `Nat → World`, one tick per 0.5 s
poll/sleep interval.  A timeout of `T` seconds corresponds to `2 * T`
ticks. -/

/-- The named timeout tiers from `config/test_config.py`
(`self.TIMEOUTS`), in seconds. -/
def TIMEOUTS : String → Nat
  | "short" => 5
  | "medium" => 15
  | "long" => 30
  | "ai_response" => 45
  | _ => 0

/-- The Python default idiom `timeout = timeout or default`: any falsy
argument (`None` or `0`) is replaced by the default. -/
def pyOr (timeout : Option Nat) (d : Nat) : Nat :=
  match timeout with
  | none => d
  | some v => if v = 0 then d else v

/-- Python's `needle in hay` on strings: substring containment,
case-sensitive. -/
def isSubstring (needle hay : List Char) : Bool :=
  (List.range (hay.length + 1)).any (fun i => needle.isPrefixOf (hay.drop i))

/-- Python's `str.lower()` (restricted to the ASCII case mapping). -/
def lowerStr (s : List Char) : List Char := s.map Char.toLower

/-- `WebDriverWait(driver, timeout).until(EC.presence_of_element_located(loc))`
over a time-indexed DOM: check, and if not found sleep one tick and
retry, for `fuel` sleeps; returns the resolved element (or `none` on
timeout, standing for the caught `TimeoutException`) together with the
tick at which the wait ended. -/
def wdPollFind (env : Nat → World) (loc : Locator) :
    Nat → Nat → Option Elem × Nat
  | t, 0 => (env t loc, t)
  | t, fuel+1 =>
      match env t loc with
      | some e => (some e, t)
      | none => wdPollFind env loc (t+1) fuel

/-- The clickability condition of `EC.element_to_be_clickable` at one
instant: present, displayed and enabled. -/
def clickableAt (env : Nat → World) (t : Nat) (loc : Locator) : Option Elem :=
  match env t loc with
  | some e => if e.displayed && e.enabled then some e else none
  | none => none

/-- `WebDriverWait(...).until(EC.element_to_be_clickable(loc))` over a
time-indexed DOM. -/
def wdPollClickable (env : Nat → World) (loc : Locator) :
    Nat → Nat → Option Elem × Nat
  | t, 0 => (clickableAt env t loc, t)
  | t, fuel+1 =>
      match clickableAt env t loc with
      | some e => (some e, t)
      | none => wdPollClickable env loc (t+1) fuel

/-- `WebDriverWait(...).until(lambda d: d.execute_script("return document.readyState") == "complete")`
over a time-indexed ready signal. -/
def wdPollReady (ready : Nat → Bool) : Nat → Nat → Bool × Nat
  | t, 0 => (ready t, t)
  | t, fuel+1 => if ready t then (true, t) else wdPollReady ready (t+1) fuel

/-- `DriverManager.find_element_safe` under the timed model (lines
137-151): `timeout = timeout or config.TIMEOUTS['medium']`, then the
presence wait with the caught `TimeoutException` becoming `none`. -/
def find_element_safeT (env : Nat → World) (loc : Locator) (t0 : Nat)
    (timeout : Option Nat) : Option Elem × Nat :=
  wdPollFind env loc t0 (2 * pyOr timeout (TIMEOUTS "medium"))

/-- `DriverManager.wait_for_element_clickable` under the timed model
(lines 162-176). -/
def wait_for_element_clickableT (env : Nat → World) (loc : Locator)
    (t0 : Nat) (timeout : Option Nat) : Option Elem × Nat :=
  wdPollClickable env loc t0 (2 * pyOr timeout (TIMEOUTS "medium"))

/-- `DriverManager.wait_for_page_load` (lines 124-134):
`timeout = timeout or config.TIMEOUTS['medium']`, poll the document
ready state, catch the timeout (log only) and return regardless.  The
Bool records whether the ready state was observed. -/
def wait_for_page_load (ready : Nat → Bool) (t0 : Nat)
    (timeout : Option Nat) : Bool × Nat :=
  wdPollReady ready t0 (2 * pyOr timeout (TIMEOUTS "medium"))

/-- The shared shape of the hand-written polling loops in
`base_page.py`: `while time.time() - start_time < timeout: if cond:
return True; time.sleep(0.5)`, sampling the condition at ticks
`k, k+1, ...` while in budget; checks the condition *before* sleeping.
Returns the result together with the index of the sample at which it
returned, which equals the number of sleeps performed. -/
def pollLoop (cond : Nat → Bool) : Nat → Nat → Bool × Nat
  | k, 0 => (false, k)
  | k, fuel+1 => if cond k then (true, k) else pollLoop cond (k+1) fuel

/-- `BasePage.wait_for_url_contains` (base_page.py lines 186-196):
polls `text in self.get_current_url()` (case-sensitive) every 0.5 s
until the timeout (`timeout or config.TIMEOUTS['medium']` seconds)
elapses. -/
def wait_for_url_contains (url : Nat → List Char) (text : List Char)
    (timeout : Option Nat) : Bool × Nat :=
  pollLoop (fun k => isSubstring text (url k)) 0
    (2 * pyOr timeout (TIMEOUTS "medium"))

/-- `BasePage.wait_for_title_contains` (lines 198-208): same loop, but
the check is `text.lower() in self.get_page_title().lower()` —
case-insensitive. -/
def wait_for_title_contains (title : Nat → List Char) (text : List Char)
    (timeout : Option Nat) : Bool × Nat :=
  pollLoop (fun k => isSubstring (lowerStr text) (lowerStr (title k))) 0
    (2 * pyOr timeout (TIMEOUTS "medium"))

/-- One cycle of the inner `for selector in selectors` loop of
`BasePage.wait_for_any_element` (lines 151-155): resolve each selector
via `find_element_safe(by_css(selector), timeout=1)` against the DOM
state of this cycle and return the first element that is present and
displayed. -/
def wait_any_cycle (w : World) : List String → Option Elem
  | [] => none
  | sel :: rest =>
      match (find_element_safe w (by_css sel)).1 with
      | Except.ok (some e) =>
          if e.displayed then some e else wait_any_cycle w rest
      | _ => wait_any_cycle w rest

/-- The outer `while` loop of `wait_for_any_element`: run a cycle,
return on success, otherwise sleep one tick and retry while in budget.
The second component is the number of sleeps performed. -/
def waitAnyLoop (env : Nat → World) (sels : List String) :
    Nat → Nat → Option Elem × Nat
  | k, 0 => (none, k)
  | k, fuel+1 =>
      match wait_any_cycle (env k) sels with
      | some e => (some e, k)
      | none => waitAnyLoop env sels (k+1) fuel

/-- `BasePage.wait_for_any_element` (lines 143-158):
`timeout = timeout or config.TIMEOUTS['medium']`, then the polling
loop over the selector list. -/
def wait_for_any_element (env : Nat → World) (sels : List String)
    (timeout : Option Nat) : Option Elem × Nat :=
  waitAnyLoop env sels 0 (2 * pyOr timeout (TIMEOUTS "medium"))

/-- `BasePage.try_multiple_selectors` (`find` mode) under the timed
model: each selector is attempted with
`find_element_safe(locator, timeout=2)`, the next attempt starting at
the tick where the previous one ended. -/
def try_multiple_selectors_findT (env : Nat → World) :
    List String → Nat → Option Elem × Nat
  | [], t => (none, t)
  | sel :: rest, t =>
      match find_element_safeT env (by_css sel) t (some 2) with
      | (some e, t1) =>
          if e.displayed then (some e, t1)
          else try_multiple_selectors_findT env rest t1
      | (none, t1) => try_multiple_selectors_findT env rest t1

/-! ### Helper lemmas about the polling loops -/

theorem pollLoop_true_iff (cond : Nat → Bool) (fuel k : Nat) :
    (pollLoop cond k fuel).1 = true ↔
      ∃ j, j < fuel ∧ cond (k + j) = true := by
  induction fuel generalizing k with
  | zero => simp [pollLoop]
  | succ f ih =>
      cases h : cond k with
      | true =>
          have hstep : pollLoop cond k (f+1) = (true, k) := by
            simp [pollLoop, h]
          rw [hstep]
          exact ⟨fun _ => ⟨0, Nat.succ_pos f, by simpa using h⟩, fun _ => rfl⟩
      | false =>
          simp only [pollLoop, h, Bool.false_eq_true, if_false]
          rw [ih (k+1)]
          constructor
          · rintro ⟨j, hj, hc⟩
            exact ⟨j+1, by omega, by rwa [show k + (j+1) = k + 1 + j by omega]⟩
          · rintro ⟨j, hj, hc⟩
            cases j with
            | zero =>
                rw [Nat.add_zero] at hc
                rw [hc] at h
                cases h
            | succ j' =>
                exact ⟨j', by omega,
                  by rwa [show k + 1 + j' = k + (j' + 1) by omega]⟩

theorem pollLoop_ready (cond : Nat → Bool) (k fuel : Nat)
    (h : cond k = true) (hf : 0 < fuel) : pollLoop cond k fuel = (true, k) := by
  cases fuel with
  | zero => omega
  | succ f => simp [pollLoop, h]

theorem pyOr_pos (t : Option Nat) (d : Nat) (hd : 0 < d) : 0 < pyOr t d := by
  cases t with
  | none => simpa [pyOr]
  | some v =>
      by_cases hv : v = 0 <;> simp [pyOr, hv] <;> omega

theorem wdPollFind_never (env : Nat → World) (loc : Locator)
    (h : ∀ t, env t loc = none) (t : Nat) :
    ∀ fuel, wdPollFind env loc t fuel = (none, t + fuel) := by
  intro fuel
  induction fuel generalizing t with
  | zero => simp [wdPollFind, h t]
  | succ f ih =>
      have hstep : wdPollFind env loc t (f+1) = wdPollFind env loc (t+1) f := by
        simp [wdPollFind, h t]
      have harith : t + 1 + f = t + (f + 1) := by omega
      rw [hstep, ih (t+1), harith]

/-- Claim C3: `wait_for_url_contains(text, timeout)` returns true if
and only if the current URL contains `text` (case-sensitively) at one
of the polled samples taken before the timeout deadline; otherwise it
returns false (the embedding is a total function — nothing is
raised). -/
theorem C3_wait_url_contains_iff (url : Nat → List Char)
    (text : List Char) (timeout : Option Nat) :
    (wait_for_url_contains url text timeout).1 = true ↔
      ∃ k, k < 2 * pyOr timeout (TIMEOUTS "medium")
        ∧ isSubstring text (url k) = true := by
  simpa using
    pollLoop_true_iff (fun k => isSubstring text (url k))
      (2 * pyOr timeout (TIMEOUTS "medium")) 0

/-- Claim C10: `wait_for_title_contains` lowercases both the expected
text and the sampled page title before the containment check, so it
returns true exactly when some polled sample of the title contains the
expected text up to letter case; concretely, an all-caps title matches
a lowercase expectation, while `wait_for_url_contains` on the same
data stays case-sensitive and fails. -/
theorem C10_wait_title_case_insensitive (title : Nat → List Char)
    (text : List Char) (timeout : Option Nat) :
    ((wait_for_title_contains title text timeout).1 = true ↔
      ∃ k, k < 2 * pyOr timeout (TIMEOUTS "medium")
        ∧ isSubstring (lowerStr text) (lowerStr (title k)) = true)
    ∧ (wait_for_title_contains (fun _ => "EduAssist DASHBOARD".data)
        "dashboard".data none).1 = true
    ∧ (wait_for_url_contains (fun _ => "EduAssist DASHBOARD".data)
        "dashboard".data none).1 = false := by
  refine ⟨?_, by decide, by decide⟩
  simpa using
    pollLoop_true_iff
      (fun k => isSubstring (lowerStr text) (lowerStr (title k)))
      (2 * pyOr timeout (TIMEOUTS "medium")) 0

/-- Claim C4: every hand-written polling loop checks its condition
before sleeping, so whenever the condition already holds at call time
(sample 0) the loop returns success at its first sample, having
performed zero sleep iterations — it never waits out the timeout. -/
theorem C4_condition_checked_before_sleeping (env : Nat → World)
    (sels : List String) (url ttl : Nat → List Char)
    (utext ttext : List Char) (to1 to2 to3 : Option Nat) (e : Elem)
    (h1 : wait_any_cycle (env 0) sels = some e)
    (h2 : isSubstring utext (url 0) = true)
    (h3 : isSubstring (lowerStr ttext) (lowerStr (ttl 0)) = true) :
    wait_for_any_element env sels to1 = (some e, 0)
    ∧ wait_for_url_contains url utext to2 = (true, 0)
    ∧ wait_for_title_contains ttl ttext to3 = (true, 0) := by
  have hmed : 0 < TIMEOUTS "medium" := by norm_num [TIMEOUTS]
  refine ⟨?_, ?_, ?_⟩
  · have hpos := pyOr_pos to1 (TIMEOUTS "medium") hmed
    unfold wait_for_any_element
    obtain ⟨f, hf⟩ : ∃ f, 2 * pyOr to1 (TIMEOUTS "medium") = f + 1 :=
      ⟨2 * pyOr to1 (TIMEOUTS "medium") - 1, by omega⟩
    rw [hf]
    simp [waitAnyLoop, h1]
  · exact pollLoop_ready _ 0 _ h2
      (by have := pyOr_pos to2 (TIMEOUTS "medium") hmed; omega)
  · exact pollLoop_ready _ 0 _ h3
      (by have := pyOr_pos to3 (TIMEOUTS "medium") hmed; omega)

/-- Witness for C4: an element visible at call time, a URL and a title
already containing their expected text at sample 0. -/
theorem C4_condition_checked_before_sleeping_witness :
    wait_for_any_element (fun _ => inputWorld) ["#main"] none =
      (some healthyInput, 0)
    ∧ wait_for_url_contains (fun _ => "http://localhost:3000/dashboard".data)
        "/dashboard".data none = (true, 0)
    ∧ wait_for_title_contains (fun _ => "EduAssist Dashboard".data)
        "dashboard".data none = (true, 0) :=
  C4_condition_checked_before_sleeping (fun _ => inputWorld) ["#main"]
    (fun _ => "http://localhost:3000/dashboard".data)
    (fun _ => "EduAssist Dashboard".data) "/dashboard".data "dashboard".data
    none none none healthyInput rfl (by decide) (by decide)

/-- Claim C5: when no selector in the set ever matches,
`try_multiple_selectors` (find mode) terminates with `none` after one
bounded attempt per selector, within
`len(set) × perAttemptTimeout = len(set) × 2 s` (i.e. `len × 4`
half-second ticks) of elapsed time. -/
theorem C5_try_multiple_bounded_time (env : Nat → World)
    (sels : List String) (t0 : Nat)
    (h : ∀ t sel, sel ∈ sels → env t (by_css sel) = none) :
    (try_multiple_selectors_findT env sels t0).1 = none
    ∧ (try_multiple_selectors_findT env sels t0).2 ≤
        t0 + sels.length * (2 * 2) := by
  revert h
  induction sels generalizing t0 with
  | nil => intro h; simp [try_multiple_selectors_findT]
  | cons s rest ih =>
      intro h
      have hfind : find_element_safeT env (by_css s) t0 (some 2) =
          (none, t0 + 4) := by
        unfold find_element_safeT
        rw [wdPollFind_never env (by_css s)
          (fun t => h t s (List.mem_cons_self s rest)) t0]
        rfl
      have hrest : ∀ t sel, sel ∈ rest → env t (by_css sel) = none :=
        fun t sel hm => h t sel (List.mem_cons_of_mem s hm)
      obtain ⟨ha, hb⟩ := ih (t0 + 4) hrest
      unfold try_multiple_selectors_findT
      rw [hfind]
      refine ⟨ha, ?_⟩
      simp only [List.length_cons]
      omega

/-- Witness for C5: two dead selectors over an always-empty DOM. -/
theorem C5_try_multiple_bounded_time_witness :
    (try_multiple_selectors_findT (fun _ => emptyWorld) ["#a", ".b"] 0).1 = none
    ∧ (try_multiple_selectors_findT (fun _ => emptyWorld) ["#a", ".b"] 0).2 ≤
        0 + (["#a", ".b"] : List String).length * (2 * 2) :=
  C5_try_multiple_bounded_time (fun _ => emptyWorld) ["#a", ".b"] 0
    (fun _ _ _ => rfl)

/-- Claim C9: because timeouts default via
`timeout = timeout or config.TIMEOUTS[...]`, an explicit override of
`0` is indistinguishable from no override for `find_element_safe`,
`wait_for_element_clickable`, `wait_for_page_load`,
`wait_for_url_contains` and `wait_for_any_element`; in particular, on
a never-matching locator, `find_element_safe` with timeout `0` still
waits the full medium tier instead of performing a zero-length
wait. -/
theorem C9_zero_timeout_means_default (env : Nat → World) (loc : Locator)
    (ready : Nat → Bool) (url : Nat → List Char) (text : List Char)
    (sels : List String) (t0 : Nat)
    (hnever : ∀ t, env t loc = none) :
    find_element_safeT env loc t0 (some 0) = find_element_safeT env loc t0 none
    ∧ wait_for_element_clickableT env loc t0 (some 0) =
        wait_for_element_clickableT env loc t0 none
    ∧ wait_for_page_load ready t0 (some 0) = wait_for_page_load ready t0 none
    ∧ wait_for_url_contains url text (some 0) =
        wait_for_url_contains url text none
    ∧ wait_for_any_element env sels (some 0) =
        wait_for_any_element env sels none
    ∧ (find_element_safeT env loc t0 (some 0)).2 =
        t0 + 2 * TIMEOUTS "medium" := by
  refine ⟨rfl, rfl, rfl, rfl, rfl, ?_⟩
  unfold find_element_safeT
  rw [wdPollFind_never env loc hnever t0]
  rfl

/-- Witness for C9 on an always-empty DOM. -/
theorem C9_zero_timeout_means_default_witness :
    find_element_safeT (fun _ => emptyWorld) (by_css "#x") 0 (some 0) =
      find_element_safeT (fun _ => emptyWorld) (by_css "#x") 0 none
    ∧ wait_for_element_clickableT (fun _ => emptyWorld) (by_css "#x") 0
        (some 0) =
        wait_for_element_clickableT (fun _ => emptyWorld) (by_css "#x") 0 none
    ∧ wait_for_page_load (fun _ => false) 0 (some 0) =
        wait_for_page_load (fun _ => false) 0 none
    ∧ wait_for_url_contains (fun _ => "u".data) "x".data (some 0) =
        wait_for_url_contains (fun _ => "u".data) "x".data none
    ∧ wait_for_any_element (fun _ => emptyWorld) ["#x"] (some 0) =
        wait_for_any_element (fun _ => emptyWorld) ["#x"] none
    ∧ (find_element_safeT (fun _ => emptyWorld) (by_css "#x") 0 (some 0)).2 =
        0 + 2 * TIMEOUTS "medium" :=
  C9_zero_timeout_means_default (fun _ => emptyWorld) (by_css "#x")
    (fun _ => false) (fun _ => "u".data) "x".data ["#x"] 0 (fun _ => rfl)

/-! ## Session lifecycle model (`DriverManager` class state) -/

/-- The live browser handle held in `DriverManager._driver`: the data
the getters read, plus whether `driver.quit()` would currently fail. -/
structure DriverH where
  currentUrl : List Char
  title : List Char
  quitFails : Bool
  deriving DecidableEq, Repr

/-- The class-level mutable state of `DriverManager`: `_driver` and
`_wait`, each `None` before initialization and after a successful
`quit_driver`. -/
structure MState where
  driver : Option DriverH
  wait : Option Unit
  deriving DecidableEq, Repr

/-- Python attribute access `obj.attr` on an `Optional[...]` driver
handle: on `None` it raises `AttributeError` naming the attribute. -/
def pyAttr {α : Type} (o : Option DriverH) (attr : String)
    (f : DriverH → α) : Except PyExn α :=
  match o with
  | none => Except.error (PyExn.attributeError attr)
  | some d => Except.ok (f d)

/-- `DriverManager.get_driver` (driver_manager.py lines 97-102):
raises `RuntimeError("WebDriver not initialized...")` when `_driver`
is `None`. -/
def get_driver (st : MState) : Except PyExn DriverH :=
  match st.driver with
  | none => Except.error (PyExn.runtimeError
      "WebDriver not initialized. Call initialize_driver() first.")
  | some d => Except.ok d

/-- `DriverManager.get_wait` (lines 104-109). -/
def get_wait (st : MState) : Except PyExn Unit :=
  match st.wait with
  | none => Except.error (PyExn.runtimeError
      "WebDriverWait not initialized. Call initialize_driver() first.")
  | some w => Except.ok w

/-- `DriverManager.get_current_url` (lines 300-303): reads
`cls._driver.current_url` with no `None` guard. -/
def get_current_url (st : MState) : Except PyExn (List Char) :=
  pyAttr st.driver "current_url" (fun d => d.currentUrl)

/-- `DriverManager.get_title` (lines 305-308): reads
`cls._driver.title` with no `None` guard. -/
def get_title (st : MState) : Except PyExn (List Char) :=
  pyAttr st.driver "title" (fun d => d.title)

/-- `DriverManager.quit_driver` (lines 310-324): when a driver is
held, quit it and clear both `_driver` and `_wait`, the whole block
under `except Exception` which swallows any cleanup error (leaving the
handles in place); when `_driver` is already `None`, do nothing.
Returns the new state and the Python-level result. -/
def quit_driver (st : MState) : MState × Except PyExn Unit :=
  match st.driver with
  | none => (st, Except.ok ())
  | some d =>
      if d.quitFails then (st, Except.ok ())
      else ({ driver := none, wait := none }, Except.ok ())

/-- Recognizes the clear "not initialized" `RuntimeError` raised by
the guarded getters (the only `RuntimeError` this component raises). -/
def isNotInitializedError : PyExn → Bool
  | PyExn.runtimeError _ => true
  | _ => false

/-- The manager state after a completed shutdown: both handles
released. -/
def postShutdown : MState := ⟨none, none⟩

theorem quit_driver_ok (st : MState) : (quit_driver st).2 = Except.ok () := by
  rcases st with ⟨od, ow⟩
  cases od with
  | none => rfl
  | some d => by_cases hq : d.quitFails <;> simp [quit_driver, hq]

/-- Claim C6 counterexample: after shutdown, the operation
`get_current_url` (and likewise `get_title`) is neither a no-op nor a
raise of the clear "not initialized" `RuntimeError`: it raises an
`AttributeError` from dereferencing the released `None` driver
handle. -/
theorem C6_counterexample_attribute_error :
    get_current_url postShutdown =
      Except.error (PyExn.attributeError "current_url")
    ∧ isNotInitializedError (PyExn.attributeError "current_url") = false
    ∧ get_title postShutdown = Except.error (PyExn.attributeError "title")
    ∧ isNotInitializedError (PyExn.attributeError "title") = false :=
  ⟨rfl, rfl, rfl, rfl⟩

/-- Claim C6 as amended: after a successful `quit_driver`, every
subsequent operation modelled here errors loudly rather than hanging
or silently succeeding — `get_driver` and `get_wait` raise the clear
"not initialized" `RuntimeError`, while `get_current_url` and
`get_title` raise an `AttributeError` on the `None` handle (an error,
but not the clear "not initialized" one). -/
theorem C6_post_shutdown_errors (st : MState) (d : DriverH)
    (hd : st.driver = some d) (hq : d.quitFails = false) :
    (quit_driver st).1.driver = none
    ∧ get_driver (quit_driver st).1 = Except.error (PyExn.runtimeError
        "WebDriver not initialized. Call initialize_driver() first.")
    ∧ get_wait (quit_driver st).1 = Except.error (PyExn.runtimeError
        "WebDriverWait not initialized. Call initialize_driver() first.")
    ∧ get_current_url (quit_driver st).1 =
        Except.error (PyExn.attributeError "current_url")
    ∧ get_title (quit_driver st).1 =
        Except.error (PyExn.attributeError "title") := by
  simp [quit_driver, hd, hq, get_driver, get_wait, get_current_url,
        get_title, pyAttr]

/-- A healthy driver handle used as witness input. -/
def liveDriver : DriverH :=
  ⟨"http://localhost:3000/dashboard".data, "EduAssist".data, false⟩

/-- Witness for the amended C6 on an initialized session. -/
theorem C6_post_shutdown_errors_witness :
    (quit_driver ⟨some liveDriver, some ()⟩).1.driver = none
    ∧ get_driver (quit_driver ⟨some liveDriver, some ()⟩).1 =
        Except.error (PyExn.runtimeError
          "WebDriver not initialized. Call initialize_driver() first.")
    ∧ get_wait (quit_driver ⟨some liveDriver, some ()⟩).1 =
        Except.error (PyExn.runtimeError
          "WebDriverWait not initialized. Call initialize_driver() first.")
    ∧ get_current_url (quit_driver ⟨some liveDriver, some ()⟩).1 =
        Except.error (PyExn.attributeError "current_url")
    ∧ get_title (quit_driver ⟨some liveDriver, some ()⟩).1 =
        Except.error (PyExn.attributeError "title") :=
  C6_post_shutdown_errors ⟨some liveDriver, some ()⟩ liveDriver rfl rfl

/-- Claim C7: `quit_driver` is idempotent and error-free: the second
of two successive calls returns without error from every starting
state (including one whose cleanup fails); calling it when
initialization left `_driver` as `None` is a pure no-op; and every
call returns normally, the `except Exception` having swallowed any
cleanup error. -/
theorem C7_quit_driver_idempotent (st : MState) (w : Option Unit) :
    (quit_driver (quit_driver st).1).2 = Except.ok ()
    ∧ quit_driver ⟨none, w⟩ = (⟨none, w⟩, Except.ok ())
    ∧ (quit_driver st).2 = Except.ok () :=
  ⟨quit_driver_ok _, rfl, quit_driver_ok st⟩

end EduAssist
